import Mathlib

/-!
Shallow embedding of the resumable chunked OTA download engine of
`src/esp32fotagsm.cpp` (class `esp32FOTAGSM`), together with proofs about it.

The engine's interactions with its collaborators (transport client, firmware
sink, connectivity probe, network semaphore) are modelled by environment
records whose fields correspond to the values those collaborators return;
each public operation is a function from its environment to an outcome, a
final state and a trace of observable events.  All 32-bit unsigned (`uint`,
`size_t`) arithmetic of the source is modelled on `Nat` with explicit
reduction modulo `2 ^ 32`.
-/

namespace Esp32Fota

/-- `2 ^ 32`: the modulus of the 32-bit unsigned (`uint` / `size_t`)
arithmetic performed by the source on an ESP32. -/
def U32 : Nat := 4294967296

/-- `#define DOWNLOAD_CHUNK_SIZE (16380)` (esp32fotagsm.cpp line 14). -/
def DOWNLOAD_CHUNK_SIZE : Nat := 16380

/-- Size of the fixed manifest buffer `char JSONMessage[256]`
(esp32fotagsm.cpp line 639). -/
def JSONBufferSize : Nat := 256

/-- 32-bit unsigned subtraction `a - b` (wrapping). -/
def sub32 (a b : Nat) : Nat := (a + (U32 - b % U32)) % U32

/-- Conversion of a C `int` value to the 32-bit unsigned (`uint` / `size_t`)
value it becomes when used in unsigned context. -/
def intToU32 (i : Int) : Nat := (i % (U32 : Int)).toNat

/-- Characters removed by Arduino `String::trim` (C `isspace`). -/
def isSpaceChar (c : Char) : Bool :=
  c = ' ' || c = '\t' || c = '\n' || c = '\x0b' || c = '\x0c' || c = '\r'

/-- Arduino `String::trim`: strip leading and trailing whitespace. -/
def arduinoTrim (s : List Char) : List Char :=
  ((s.dropWhile isSpaceChar).reverse.dropWhile isSpaceChar).reverse

/-- `needle` occurs as a contiguous substring of the second argument
(Arduino `String::indexOf(needle) >= 0`). -/
def containsSub (needle : List Char) : List Char → Bool
  | [] => needle.isEmpty
  | c :: t => needle.isPrefixOf (c :: t) || containsSub needle t

/-- Arduino `String::equalsIgnoreCase` (ASCII case folding). -/
def eqIgnoreCase (a b : List Char) : Bool :=
  a.map Char.toLower == b.map Char.toLower

/-- Accumulate the value of the leading decimal digits. -/
def leadingDigits : List Char → Nat → Nat
  | [], acc => acc
  | c :: t, acc => if c.isDigit then leadingDigits t (acc * 10 + (c.toNat - 48)) else acc

/-- Arduino `String::toInt` (C `atol`): skip leading whitespace, optional
sign, then the leading run of digits; `0` when there are none. -/
def arduinoToInt (s : List Char) : Int :=
  match s.dropWhile isSpaceChar with
  | '-' :: t => -(leadingDigits t 0 : Int)
  | '+' :: t => (leadingDigits t 0 : Int)
  | t => (leadingDigits t 0 : Int)

/-- `splitHeader` (esp32fotagsm.cpp lines 67-77): split at the first `':'`;
the value part is trimmed.  When there is no colon, `indexOf` returns `-1`
and Arduino's unsigned `substring` arithmetic yields the whole string for
both the header name and the value. -/
def splitHeader (src : List Char) : List Char × List Char :=
  match src.findIdx? (· = ':') with
  | some i => (src.take i, arduinoTrim (src.drop (i + 1)))
  | none => (src, arduinoTrim src)

/-! ### String constants used by the source -/

def httpSig : List Char := ("HTTP/1.1").toList
def code200 : List Char := ("200").toList
def code206 : List Char := ("206").toList
def hdrContentLength : List Char := ("Content-Length").toList
def hdrContentType : List Char := ("Content-type").toList
def hdrAcceptRanges : List Char := ("Accept-Ranges").toList
def hdrConnection : List Char := ("Connection").toList
def ctOctetStream : List Char := ("application/octet-stream").toList
def ctJson : List Char := ("application/json").toList
def valBytes : List Char := ("bytes").toList
def valKeepAlive : List Char := ("keep-alive").toList

/-! ### Observable events

One event per call the engine makes on a collaborator that the claims
talk about: the network semaphore (Link Guard), the transport client and
the firmware sink (`Update`). -/

inductive Event where
  /-- `_blockingNetworkSemaphoreTake()` -/
  | semTake
  /-- `_blockingNetworkSemaphoreGive()` -/
  | semGive
  /-- `_client->connect(...)` returning `ok` -/
  | connect (ok : Bool)
  /-- the `HEAD` request of `execOTA` -/
  | requestHEAD
  /-- a `GET` request; `some (first, last)` when it carries a
  `Range: bytes=first-last` header -/
  | requestGET (range : Option (Nat × Nat))
  /-- `_client->stop()` -/
  | clientStop
  /-- `_client->readBytes(buffer, n)` -/
  | readBytes (n : Nat)
  /-- `Update.begin(n)` returning `ok` -/
  | sinkBegin (n : Int) (ok : Bool)
  /-- `Update.write(buffer, handed)` returning `accepted` -/
  | sinkWrite (handed accepted : Nat)
  /-- `Update.writeStream(client)` returning `n` -/
  | writeStream (n : Nat)
  /-- `Update.end()` returning `ok` -/
  | sinkEnd (ok : Bool)
  /-- `ESP.restart()` -/
  | restart
  deriving DecidableEq

/-- Step function of the Link-Guard balance check: `none` marks a second
acquisition without an intervening release; otherwise the `Bool` says
whether the guard is currently held. -/
def semStep (h : Option Bool) (e : Event) : Option Bool :=
  match h with
  | none => none
  | some held =>
    match e with
    | .semTake => if held then none else some true
    | .semGive => some false
    | .connect _ => some held
    | .requestHEAD => some held
    | .requestGET _ => some held
    | .clientStop => some held
    | .readBytes _ => some held
    | .sinkBegin _ _ => some held
    | .sinkWrite _ _ => some held
    | .writeStream _ => some held
    | .sinkEnd _ => some held
    | .restart => some held

/-- Scan a trace, tracking whether the Link Guard is held. -/
def semBal (evs : List Event) (h : Bool) : Option Bool :=
  evs.foldl semStep (some h)

/-! ### Header-parsing loops -/

/-- Parse state of the HEAD-response header loop of `execOTA`. -/
structure HeadParse where
  contentLength : Int
  isValidContentType : Bool
  acceptRangesBytes : Bool
  gotHTTPStatus : Bool
  deriving DecidableEq

def initHeadParse : HeadParse :=
  { contentLength := 0, isValidContentType := false,
    acceptRangesBytes := false, gotHTTPStatus := false }

/-- Header loop of the HEAD exchange in `execOTA` (lines 123-189): stop at
an empty line; a status line without `200` stops the client and breaks;
headers before the status line are skipped; recognize `Content-Length`,
`Content-type` (`application/octet-stream`) and `Accept-Ranges` (`bytes`). -/
def headLoop : List (List Char) → HeadParse → HeadParse
  | [], st => st
  | l :: rest, st =>
    let line := arduinoTrim l
    if line.isEmpty then st
    else if httpSig.isPrefixOf line && !containsSub code200 line then st
    else
      let st1 : HeadParse :=
        if httpSig.isPrefixOf line then { st with gotHTTPStatus := true } else st
      if !st1.gotHTTPStatus then headLoop rest st1
      else
        let p := splitHeader line
        if eqIgnoreCase p.1 hdrContentLength then
          headLoop rest { st1 with contentLength := arduinoToInt p.2 }
        else if eqIgnoreCase p.1 hdrContentType then
          headLoop rest
            (if p.2 == ctOctetStream then { st1 with isValidContentType := true } else st1)
        else if eqIgnoreCase p.1 hdrAcceptRanges then
          headLoop rest
            (if p.2 == valBytes then { st1 with acceptRangesBytes := true } else st1)
        else headLoop rest st1

/-- Parse state of the manifest-response header loop of `execHTTPcheck`. -/
structure CheckParse where
  contentLength : Int
  isValidContentType : Bool
  gotHTTPStatus : Bool
  deriving DecidableEq

def initCheckParse : CheckParse :=
  { contentLength := 0, isValidContentType := false, gotHTTPStatus := false }

/-- Header loop of `execHTTPcheck` (lines 568-625): like `headLoop` but the
valid content type is `application/json` and `Accept-Ranges` is not read. -/
def checkHeaderLoop : List (List Char) → CheckParse → CheckParse
  | [], st => st
  | l :: rest, st =>
    let line := arduinoTrim l
    if line.isEmpty then st
    else if httpSig.isPrefixOf line && !containsSub code200 line then st
    else
      let st1 : CheckParse :=
        if httpSig.isPrefixOf line then { st with gotHTTPStatus := true } else st
      if !st1.gotHTTPStatus then checkHeaderLoop rest st1
      else
        let p := splitHeader line
        if eqIgnoreCase p.1 hdrContentLength then
          checkHeaderLoop rest { st1 with contentLength := arduinoToInt p.2 }
        else if eqIgnoreCase p.1 hdrContentType then
          checkHeaderLoop rest
            (if p.2 == ctJson then { st1 with isValidContentType := true } else st1)
        else checkHeaderLoop rest st1

/-- Header loop of one ranged-GET exchange inside the chunk loop of
`execOTA` (lines 318-370).  Given the header lines and the current
`should_close_connection` flag it returns the updated flag together with
whether the loop called `_client->stop()` because the status was not 206.
Note that on a non-206 status the `break` exits only this header loop. -/
def chunkHeaderLoop : List (List Char) → Bool → Bool × Bool
  | [], scc => (scc, false)
  | l :: rest, scc =>
    let line := arduinoTrim l
    if line.isEmpty then (scc, false)
    else if httpSig.isPrefixOf line && !containsSub code206 line then (scc, true)
    else
      let p := splitHeader line
      if eqIgnoreCase p.1 hdrConnection then
        chunkHeaderLoop rest (!(p.2 == valKeepAlive))
      else chunkHeaderLoop rest scc

/-! ### The chunked-download loop -/

/-- The local variables of the chunk loop of `execOTA` (lines 237-241),
plus whether the transport client is currently connected. -/
structure ChunkState where
  chunk_first_byte : Nat
  chunk_last_byte : Nat
  remainig_bytes : Nat
  total_written_bytes : Nat
  should_close_connection : Bool
  connected : Bool
  deriving DecidableEq

/-- What the collaborators do during one iteration of the chunk loop. -/
structure ChunkIterEnv where
  /-- result of `_checkConnection()` -/
  connCheck : Bool
  /-- whether an existing connection is still up when `_client->connected()`
  is polled (the network may drop it at any time) -/
  stillConnected : Bool
  /-- result of `_client->connect(...)` when reconnecting -/
  reconnectOk : Bool
  /-- whether response bytes arrive before the timeout after the ranged GET -/
  hasData : Bool
  /-- the response header lines -/
  lines : List (List Char)
  /-- result of `_client->readBytes(buffer, n)` as a function of `n` -/
  readBytesResult : Nat → Nat
  /-- result of `Update.write(buffer, readed)` as a function of `readed` -/
  writeResult : Nat → Nat

/-- The first adjustment of `chunk_last_byte` (lines 276-280): clamp to
`chunk_first_byte + remainig_bytes - 1` (wrapping `uint` arithmetic) when
fewer than `DOWNLOAD_CHUNK_SIZE` bytes remain. -/
def chunkClb1 (st : ChunkState) : Nat :=
  if st.remainig_bytes < DOWNLOAD_CHUNK_SIZE
  then (st.chunk_first_byte + st.remainig_bytes + (U32 - 1)) % U32
  else st.chunk_last_byte

/-- The second adjustment of `chunk_last_byte` (lines 282-286): clamp an
oversized span to `chunk_first_byte + DOWNLOAD_CHUNK_SIZE - 1`. -/
def chunkAdjustLast (st : ChunkState) : Nat :=
  if DOWNLOAD_CHUNK_SIZE < sub32 (chunkClb1 st) st.chunk_first_byte
  then (st.chunk_first_byte + DOWNLOAD_CHUNK_SIZE - 1) % U32
  else chunkClb1 st

/-- `uint bytes_to_read = chunk_last_byte - chunk_first_byte + 1`
(line 372); `clb2` is the adjusted `chunk_last_byte`. -/
def bytes_to_read (st : ChunkState) (clb2 : Nat) : Nat :=
  (sub32 clb2 st.chunk_first_byte + 1) % U32

/-- `size_t readed_bytes = _client->readBytes(chunk_buffer, bytes_to_read)`
(line 375): the client decides how many bytes actually arrive. -/
def readed_bytes (e : ChunkIterEnv) (st : ChunkState) (clb2 : Nat) : Nat :=
  (e.readBytesResult (bytes_to_read st clb2)) % U32

/-- `last_written_bytes = Update.write(chunk_buffer, readed_bytes)`
(line 388): the sink decides how many bytes it accepts. -/
def last_written_bytes (e : ChunkIterEnv) (st : ChunkState) (clb2 : Nat) : Nat :=
  (e.writeResult (readed_bytes e st clb2)) % U32

/-- `chunk_last_byte` after the short-read correction
`chunk_last_byte = chunk_first_byte + readed_bytes - 1` (line 384), which
underflows in `uint` arithmetic when 0 bytes were read. -/
def shortReadLast (e : ChunkIterEnv) (st : ChunkState) (clb2 : Nat) : Nat :=
  if readed_bytes e st clb2 ≠ bytes_to_read st clb2
  then (st.chunk_first_byte + readed_bytes e st clb2 + (U32 - 1)) % U32
  else clb2

/-- The body of one ranged-GET exchange once data has arrived
(lines 317-412): parse the headers, read `bytes_to_read` bytes, shrink
`chunk_last_byte` on a short read, hand the bytes to the sink, and advance
`chunk_first_byte`, `chunk_last_byte` and `remainig_bytes` by
`last_written_bytes` (lines 399-401). -/
def chunkExchange (e : ChunkIterEnv) (st : ChunkState) (clb2 : Nat) : ChunkState × List Event :=
  ({ chunk_first_byte := (st.chunk_first_byte + last_written_bytes e st clb2) % U32,
     chunk_last_byte := (shortReadLast e st clb2 + last_written_bytes e st clb2) % U32,
     remainig_bytes := sub32 st.remainig_bytes (last_written_bytes e st clb2),
     total_written_bytes := (st.total_written_bytes + last_written_bytes e st clb2) % U32,
     should_close_connection := (chunkHeaderLoop e.lines st.should_close_connection).1,
     connected := !(chunkHeaderLoop e.lines st.should_close_connection).2 &&
       !(chunkHeaderLoop e.lines st.should_close_connection).1 },
   [.semTake, .requestGET (some (st.chunk_first_byte, clb2))]
     ++ (if (chunkHeaderLoop e.lines st.should_close_connection).2 then [.clientStop] else [])
     ++ [.readBytes (bytes_to_read st clb2),
         .sinkWrite (readed_bytes e st clb2) (last_written_bytes e st clb2)]
     ++ (if (chunkHeaderLoop e.lines st.should_close_connection).1 then [.clientStop] else [])
     ++ [.semGive])

/-- One iteration of `while (remainig_bytes > 0)` in `execOTA`
(lines 243-414), returning the successor state and the events produced.
The arithmetic on `chunk_first_byte` / `chunk_last_byte` / `remainig_bytes`
(`uint`) and the byte counts (`size_t`) wraps modulo `2 ^ 32` exactly as in
the source; in particular `chunk_last_byte = chunk_first_byte + readed - 1`
underflows when `readed = 0`. -/
def chunkIter (e : ChunkIterEnv) (st : ChunkState) : ChunkState × List Event :=
  if !e.connCheck then (st, [])
  else if !(st.connected && e.stillConnected) then
    (if e.reconnectOk then ({ st with connected := true }, [.semTake, .connect true, .semGive])
     else ({ st with connected := false }, [.semTake, .connect false, .semGive]))
  else
    if !e.hasData then
      ({ st with chunk_last_byte := chunkAdjustLast st, connected := false },
       [.semTake, .requestGET (some (st.chunk_first_byte, chunkAdjustLast st)),
        .clientStop, .semGive])
    else chunkExchange e st (chunkAdjustLast st)

/-- The chunk loop, fuel-bounded: `none` when the loop has not terminated
within `fuel` iterations.  `i` indexes the per-iteration environment. -/
def chunkLoop (env : Nat → ChunkIterEnv) : Nat → Nat → ChunkState → Option ChunkState × List Event
  | 0, _, st => (if st.remainig_bytes = 0 then some st else none, [])
  | fuel + 1, i, st =>
    if st.remainig_bytes = 0 then (some st, [])
    else
      let s := chunkIter (env i) st
      let r := chunkLoop env fuel (i + 1) s.1
      (r.1, s.2 ++ r.2)

/-- The states at successive iteration boundaries of the chunk loop. -/
def chunkLoopStates (env : Nat → ChunkIterEnv) : Nat → Nat → ChunkState → List ChunkState
  | 0, _, st => [st]
  | fuel + 1, i, st =>
    if st.remainig_bytes = 0 then [st]
    else st :: chunkLoopStates env fuel (i + 1) (chunkIter (env i) st).1

/-- The initial chunk-loop state (lines 237-241): the client was stopped at
line 199, so it enters the loop disconnected. -/
def initChunkState (rem0 : Nat) : ChunkState :=
  { chunk_first_byte := 0, chunk_last_byte := DOWNLOAD_CHUNK_SIZE - 1,
    remainig_bytes := rem0, total_written_bytes := 0,
    should_close_connection := false, connected := false }

/-! ### `execOTA` -/

/-- The member fields of `esp32FOTAGSM` naming the current download target. -/
structure DeviceState where
  host : List Char
  bin : List Char
  port : Int
  checksum : List Char
  deriving DecidableEq

/-- What the collaborators do during one `execOTA` session. -/
structure OTAEnv where
  /-- result of the initial `_client->connect` (line 98) -/
  headConnectOk : Bool
  /-- no response bytes before `CLIENT_TIMEOUT_MS` after the HEAD request -/
  headTimeout : Bool
  /-- HEAD response header lines -/
  headLines : List (List Char)
  /-- result of `Update.begin(contentLength)` -/
  updateBeginOk : Bool
  /-- per-iteration environment of the chunk loop -/
  chunkEnv : Nat → ChunkIterEnv
  /-- result of `_client->connect` in the whole-file branch (line 423) -/
  wholeConnectOk : Bool
  /-- no response bytes before the timeout in the whole-file branch -/
  wholeTimeout : Bool
  /-- result of `Update.writeStream(*_client)` -/
  wholeWritten : Nat
  /-- result of `Update.end()` -/
  updateEndOk : Bool
  /-- result of `Update.isFinished()` -/
  updateFinished : Bool

/-- How an `execOTA` execution ends.  `fellOffEnd` marks control reaching
the closing brace of the `bool` function without a `return` statement
(lines 481-518), `restarted` the `ESP.restart()` call, and `outOfFuel` a
chunk loop still running after the given number of iterations. -/
inductive OTAOutcome where
  | returned (b : Bool)
  | restarted
  | fellOffEnd
  | outOfFuel
  deriving DecidableEq

/-- The tail of `execOTA` from `Update.end()` on (lines 481-498): both the
`Update.end()` failure branch and the `!Update.isFinished()` branch fall
off the end of the function. -/
def finishUpdate (evs : List Event) (env : OTAEnv) : OTAOutcome × List Event :=
  if env.updateEndOk then
    (if env.updateFinished then (.restarted, evs ++ [.sinkEnd true, .restart])
     else (.fellOffEnd, evs ++ [.sinkEnd true]))
  else (.fellOffEnd, evs ++ [.sinkEnd false])

/-- The events of the HEAD exchange of `execOTA` (lines 96-200): take the
guard, connect, issue the HEAD, stop the client, give the guard. -/
def otaHeadEvents : List Event :=
  [.semTake, .connect true, .requestHEAD, .clientStop, .semGive]

/-- The events of `execOTA` up to and including a successful
`Update.begin(contentLength)` (line 207). -/
def otaBeginEvents (env : OTAEnv) : List Event :=
  otaHeadEvents ++ [.sinkBegin (headLoop env.headLines initHeadParse).contentLength true]

/-- The events of `execOTA` through the whole chunk loop. -/
def otaChunkTrace (env : OTAEnv) (fuel : Nat) : List Event :=
  otaBeginEvents env ++
    (chunkLoop env.chunkEnv fuel 0
      (initChunkState (intToU32 (headLoop env.headLines initHeadParse).contentLength))).2

/-- `execOTA` (esp32fotagsm.cpp lines 80-518). -/
def execOTA (st : DeviceState) (env : OTAEnv) (fuel : Nat) : OTAOutcome × List Event :=
  if env.headConnectOk then
    if env.headTimeout then (.returned false, otaHeadEvents)
    else
      if (headLoop env.headLines initHeadParse).contentLength ≠ 0 ∧
         (headLoop env.headLines initHeadParse).isValidContentType = true then
        if env.updateBeginOk then
          if (headLoop env.headLines initHeadParse).acceptRangesBytes then
            match (chunkLoop env.chunkEnv fuel 0
                (initChunkState (intToU32 (headLoop env.headLines initHeadParse).contentLength))).1 with
            | none => (.outOfFuel, otaChunkTrace env fuel)
            | some _ => finishUpdate (otaChunkTrace env fuel ++ [.semGive]) env
          else
            if env.wholeConnectOk then
              if env.wholeTimeout then
                (.returned false,
                 otaBeginEvents env ++
                   [.semTake, .connect true, .requestGET none, .clientStop, .semGive])
              else
                finishUpdate
                  (otaBeginEvents env ++ [.semTake, .connect true, .requestGET none,
                    .writeStream env.wholeWritten, .semGive]) env
            else
              (.returned false, otaBeginEvents env ++ [.semTake, .connect false, .semGive])
        else
          (.returned false,
           otaHeadEvents ++ [.sinkBegin (headLoop env.headLines initHeadParse).contentLength false])
      else (.returned false, otaHeadEvents)
  else (.returned false, [.semTake, .connect false, .semGive])

/-! ### `execHTTPcheck` and `forceUpdate` -/

/-- Configuration fields of `esp32FOTAGSM` used by `execHTTPcheck`.
`useURL` (device-id suffix) is computed by the source but the request is
issued with `checkRESOURCE` (line 551), so it has no observable effect. -/
structure CheckConfig where
  checkHOST : List Char
  checkPORT : Int
  firwmareType : List Char
  firwmareVersion : Int

/-- The update descriptor extracted from the manifest JSON. -/
structure Manifest where
  type : List Char
  version : Int
  host : List Char
  bin : List Char
  checksum : List Char
  port : Int
  deriving DecidableEq

/-- What the collaborators do during one `execHTTPcheck` call. -/
structure CheckEnv where
  connectOk : Bool
  timedOut : Bool
  lines : List (List Char)
  /-- result of `deserializeJson` on the bytes read into `JSONMessage` -/
  parse : Option Manifest

structure CheckResult where
  result : Bool
  state : DeviceState
  events : List Event

/-- The state after the unconditional `_port = 80` of `execHTTPcheck`
(line 537). -/
def checkStPort80 (st0 : DeviceState) : DeviceState := { st0 with port := 80 }

/-- The state after a successfully parsed manifest overwrote the stored
target: `_port` (line 660), `_host`, `_bin`, `_checksum` (lines 669-671),
on top of the earlier `_port = 80`. -/
def checkStManifest (st0 : DeviceState) (m : Manifest) : DeviceState :=
  { checkStPort80 st0 with port := m.port, host := m.host, bin := m.bin, checksum := m.checksum }

/-- The events of the manifest GET exchange before the body is handled. -/
def checkEvs0 : List Event := [.semTake, .connect true, .requestGET none]

/-- The events of a manifest exchange rejected after the headers (timeout,
oversized declared length, missing content, or wrong content type). -/
def checkEvsReject : List Event := checkEvs0 ++ [.clientStop, .semGive]

/-- The events of a manifest exchange whose body is read into
`JSONMessage` (line 640): exactly `contentLength` bytes are requested. -/
def checkEvs1 (env : CheckEnv) : List Event :=
  checkEvs0 ++ [.readBytes (intToU32 (checkHeaderLoop env.lines initCheckParse).contentLength),
    .clientStop, .semGive]

/-- `execHTTPcheck` (esp32fotagsm.cpp lines 520-709). -/
def execHTTPcheck (cfg : CheckConfig) (env : CheckEnv) (st0 : DeviceState) : CheckResult :=
  if env.connectOk then
    if env.timedOut then
      { result := false, state := checkStPort80 st0, events := checkEvsReject }
    else
      if 256 < (checkHeaderLoop env.lines initCheckParse).contentLength then
        { result := false, state := checkStPort80 st0, events := checkEvsReject }
      else if (checkHeaderLoop env.lines initCheckParse).contentLength ≠ 0 ∧
              (checkHeaderLoop env.lines initCheckParse).isValidContentType = true then
        match env.parse with
        | none => { result := false, state := checkStPort80 st0, events := checkEvs1 env }
        | some m =>
          if m.type = cfg.firwmareType then
            (if cfg.firwmareVersion < m.version then
              { result := true, state := checkStManifest st0 m, events := checkEvs1 env }
             else { result := false, state := checkStManifest st0 m, events := checkEvs1 env })
          else { result := false, state := checkStManifest st0 m, events := checkEvs1 env }
      else
        { result := false, state := checkStPort80 st0, events := checkEvsReject }
  else
    { result := false, state := checkStPort80 st0, events := [.semTake, .connect false, .semGive] }

/-- `forceUpdate` (lines 722-729): overwrite the target fields and call
`execOTA` unconditionally; the function is `void`, so `execOTA`'s result is
discarded. -/
def forceUpdate (firmwareHost : List Char) (firmwarePort : Int) (firmwarePath : List Char)
    (checksum : List Char) (env : OTAEnv) (fuel : Nat) :
    DeviceState × (OTAOutcome × List Event) :=
  let st : DeviceState :=
    { host := firmwareHost, bin := firmwarePath, port := firmwarePort, checksum := checksum }
  (st, execOTA st env fuel)

/-! ### Trace observations -/

/-- The `Range: bytes=first-last` spans of the ranged GET requests in a
trace, in order. -/
def getRanges (evs : List Event) : List (Nat × Nat) :=
  evs.filterMap fun e => match e with
    | .requestGET (some r) => some r
    | _ => none

/-- Total number of bytes handed to the firmware sink in a trace. -/
def bytesHandedToSink (evs : List Event) : Nat :=
  (evs.filterMap fun e => match e with
    | .sinkWrite handed _ => some handed
    | .writeStream n => some n
    | _ => none).sum

/-- Whether the trace contains any GET request. -/
def hasGET (evs : List Event) : Bool :=
  evs.any fun e => match e with
    | .requestGET _ => true
    | _ => false

/-- Whether the trace contains any `readBytes` call. -/
def hasReadBytes (evs : List Event) : Bool :=
  evs.any fun e => match e with
    | .readBytes _ => true
    | _ => false

/-! ### Concrete environments used by the round-trip and counterexample
theorems -/

/-- A download target. -/
def demoDevice : DeviceState :=
  { host := ("example.com").toList, bin := ("/fw.bin").toList, port := 80, checksum := [] }

/-- HEAD response: 40000 bytes, binary, range support. -/
def headLines40000 : List (List Char) :=
  [("HTTP/1.1 200 OK").toList,
   ("Content-Length: 40000").toList,
   ("Content-Type: application/octet-stream").toList,
   ("Accept-Ranges: bytes").toList,
   ("").toList]

/-- Ranged-GET response headers of a well-behaved range server. -/
def chunkLines206 : List (List Char) :=
  [("HTTP/1.1 206 Partial Content").toList,
   ("Connection: keep-alive").toList,
   ("").toList]

/-- A chunk-loop iteration in which the server delivers every requested
byte and the sink accepts every byte handed to it. -/
def fullDeliveryIter : ChunkIterEnv :=
  { connCheck := true, stillConnected := true, reconnectOk := true, hasData := true,
    lines := chunkLines206, readBytesResult := fun n => n, writeResult := fun n => n }

/-- The C1 round-trip environment: content length 40000, range support,
full delivery, matching digest. -/
def c1Env : OTAEnv :=
  { headConnectOk := true, headTimeout := false, headLines := headLines40000,
    updateBeginOk := true, chunkEnv := fun _ => fullDeliveryIter,
    wholeConnectOk := true, wholeTimeout := false, wholeWritten := 0,
    updateEndOk := true, updateFinished := true }

/-- Ranged-GET response of a server rejecting the range request. -/
def chunkLines404 : List (List Char) :=
  [("HTTP/1.1 404 Not Found").toList]

/-- A chunk-loop iteration in which every ranged GET is answered with a
404 status: the source stops the client inside the header loop, so the
subsequent `readBytes` on the stopped client yields 0 bytes and
`Update.write` writes 0 bytes. -/
def rejectedIter : ChunkIterEnv :=
  { connCheck := true, stillConnected := true, reconnectOk := true, hasData := true,
    lines := chunkLines404, readBytesResult := fun _ => 0, writeResult := fun _ => 0 }

/-- The C3 environment: like `c1Env` but every ranged GET gets a 404. -/
def c3Env : OTAEnv :=
  { headConnectOk := true, headTimeout := false, headLines := headLines40000,
    updateBeginOk := true, chunkEnv := fun _ => rejectedIter,
    wholeConnectOk := true, wholeTimeout := false, wholeWritten := 0,
    updateEndOk := true, updateFinished := true }

/-- HEAD response: 5000 bytes, binary, no range support. -/
def headLines5000 : List (List Char) :=
  [("HTTP/1.1 200 OK").toList,
   ("Content-Length: 5000").toList,
   ("Content-Type: application/octet-stream").toList,
   ("").toList]

/-- The C4 environment: a whole-file session that downloads completely and
whose finalize (`Update.end()`) fails. -/
def c4Env : OTAEnv :=
  { headConnectOk := true, headTimeout := false, headLines := headLines5000,
    updateBeginOk := true, chunkEnv := fun _ => fullDeliveryIter,
    wholeConnectOk := true, wholeTimeout := false, wholeWritten := 5000,
    updateEndOk := false, updateFinished := false }

/-- C1: For a chunked download session with contentLength 40000, chunk size
bound 16380, and a server that advertises range support and always delivers
full chunks that the sink fully accepts, `execOTA` issues exactly 3 ranged
GET requests with byte spans [0,16379], [16380,32759], [32760,39999], and
40000 bytes in total are handed to the sink. -/
theorem execOTA_chunked_roundtrip_40000 :
    getRanges (execOTA demoDevice c1Env 5).2 =
      [(0, 16379), (16380, 32759), (32760, 39999)] ∧
    bytesHandedToSink (execOTA demoDevice c1Env 5).2 = 40000 := by
  decide

/-- C4 (code bug): a whole-file session that downloads all 5000 bytes and
whose `Update.end()` fails makes control fall off the end of the `bool`
function `execOTA` without any `return` statement: no defined boolean value
is produced. -/
theorem execOTA_falls_off_end_on_finalize_failure :
    (execOTA demoDevice c4Env 1).1 = OTAOutcome.fellOffEnd := by
  decide

/-- With `rejectedIter`, 0 bytes are written, so a ranged-GET exchange
leaves `remainig_bytes` unchanged. -/
lemma chunkExchange_rejected_remainig (st : ChunkState) (clb2 : Nat)
    (h : st.remainig_bytes < U32) :
    (chunkExchange rejectedIter st clb2).1.remainig_bytes = st.remainig_bytes := by
  simp only [chunkExchange, last_written_bytes, rejectedIter, sub32]
  unfold U32 at h ⊢
  omega

/-- With `rejectedIter` (ranged GET answered 404, hence 0 bytes read and
0 bytes written), no iteration of the chunk loop changes
`remainig_bytes`. -/
lemma chunkIter_rejected_remainig (st : ChunkState) (h : st.remainig_bytes < U32) :
    (chunkIter rejectedIter st).1.remainig_bytes = st.remainig_bytes := by
  rw [chunkIter]
  split
  · rfl
  · split
    · split <;> rfl
    · split
      · rfl
      · exact chunkExchange_rejected_remainig st _ h

/-- With every ranged GET rejected (404), the chunk loop never terminates:
whatever the fuel, it is still running. -/
lemma chunkLoop_rejected_never_returns :
    ∀ (fuel i : Nat) (st : ChunkState), st.remainig_bytes ≠ 0 → st.remainig_bytes < U32 →
      (chunkLoop (fun _ => rejectedIter) fuel i st).1 = none := by
  intro fuel
  induction fuel with
  | zero =>
    intro i st h _
    simp [chunkLoop, h]
  | succ f ih =>
    intro i st h hlt
    have hr := chunkIter_rejected_remainig st hlt
    simp only [chunkLoop, h, if_neg h]
    exact ih (i + 1) _ (by omega) (by omega)

/-- C3 (code bug): in a chunked session (contentLength 40000) where every
ranged GET is answered with a status other than 206 (here 404), `execOTA`
does not end the session in a failure: the `break` after the non-206 check
exits only the header loop, 0 bytes are read from the stopped client,
0 bytes are written, and the same chunk is retried forever — for every
fuel bound the session is still running. -/
theorem execOTA_non206_retries_forever (fuel : Nat) :
    (execOTA demoDevice c3Env fuel).1 = OTAOutcome.outOfFuel := by
  have hhead : headLoop headLines40000 initHeadParse =
      { contentLength := 40000, isValidContentType := true,
        acceptRangesBytes := true, gotHTTPStatus := true } := by decide
  have hloop : (chunkLoop (fun _ => rejectedIter) fuel 0
      (initChunkState (intToU32 (40000 : Int)))).1 = none := by
    rw [show intToU32 (40000 : Int) = 40000 from by decide]
    exact chunkLoop_rejected_never_returns fuel 0 _ (by decide) (by decide)
  rw [execOTA]
  simp only [c3Env, hhead]
  norm_num
  rw [hloop]

/-! ### The chunk-loop invariant (C2) -/

/-- The collaborator contracts of spec §6 assumed by the invariant:
`readBytes(buffer, n)` returns at most `n` and `write(buffer, n)` accepts
at most `n` bytes. -/
def EnvSane (e : ChunkIterEnv) : Prop :=
  (∀ n, e.readBytesResult n ≤ n) ∧ (∀ n, e.writeResult n ≤ n)

/-- The chunk-loop invariant: the resume cursor equals the number of bytes
written so far, written plus remaining bytes account for the whole content
length, `chunk_last_byte` is a `uint` value, and the span
`chunk_last_byte - chunk_first_byte` never equals `DOWNLOAD_CHUNK_SIZE`
exactly (it is below it, or wrapped after a 0-byte read). -/
def ChunkInv (CL : Nat) (st : ChunkState) : Prop :=
  st.chunk_first_byte = st.total_written_bytes ∧
  st.total_written_bytes + st.remainig_bytes = CL ∧
  st.chunk_last_byte < U32 ∧
  sub32 st.chunk_last_byte st.chunk_first_byte ≠ DOWNLOAD_CHUNK_SIZE

/-- After the two `chunk_last_byte` adjustments, the requested span is a
valid `uint`, is less than `DOWNLOAD_CHUNK_SIZE` long (exclusive of the
final byte), and fits in the remaining bytes. -/
lemma chunkAdjustLast_spec (st : ChunkState)
    (h1 : st.chunk_first_byte < U32) (h2 : st.chunk_last_byte < U32)
    (h3 : st.remainig_bytes ≠ 0) (h4 : st.remainig_bytes < U32)
    (h5 : sub32 st.chunk_last_byte st.chunk_first_byte ≠ DOWNLOAD_CHUNK_SIZE) :
    chunkAdjustLast st < U32 ∧
    sub32 (chunkAdjustLast st) st.chunk_first_byte < DOWNLOAD_CHUNK_SIZE ∧
    sub32 (chunkAdjustLast st) st.chunk_first_byte + 1 ≤ st.remainig_bytes := by
  unfold chunkAdjustLast chunkClb1 sub32 DOWNLOAD_CHUNK_SIZE U32 at *
  split_ifs <;> omega

/-- `readed_bytes` is at most `bytes_to_read` for a sane client. -/
lemma readed_bytes_le (e : ChunkIterEnv) (st : ChunkState) (clb2 : Nat) (he : EnvSane e) :
    readed_bytes e st clb2 ≤ bytes_to_read st clb2 :=
  le_trans (Nat.mod_le _ _) (he.1 _)

/-- `last_written_bytes` is at most `readed_bytes` for a sane sink. -/
lemma last_written_bytes_le (e : ChunkIterEnv) (st : ChunkState) (clb2 : Nat) (he : EnvSane e) :
    last_written_bytes e st clb2 ≤ readed_bytes e st clb2 :=
  le_trans (Nat.mod_le _ _) (he.2 _)

/-- A ranged-GET exchange on an adjusted span preserves the invariant and
never decreases `total_written_bytes`. -/
lemma chunkExchange_inv (CL : Nat) (hCL : CL < U32) (e : ChunkIterEnv) (he : EnvSane e)
    (st : ChunkState) (clb2 : Nat) (hinv : ChunkInv CL st)
    (hd2 : sub32 clb2 st.chunk_first_byte < DOWNLOAD_CHUNK_SIZE)
    (hle : sub32 clb2 st.chunk_first_byte + 1 ≤ st.remainig_bytes) :
    ChunkInv CL (chunkExchange e st clb2).1 ∧
    st.total_written_bytes ≤ (chunkExchange e st clb2).1.total_written_bytes := by
  obtain ⟨i1, i2, i3, i4⟩ := hinv
  have hbtr : bytes_to_read st clb2 = sub32 clb2 st.chunk_first_byte + 1 := by
    unfold bytes_to_read
    unfold DOWNLOAD_CHUNK_SIZE at hd2
    unfold U32 at *
    omega
  have hrd := readed_bytes_le e st clb2 he
  have hwr := last_written_bytes_le e st clb2 he
  have hwrem : last_written_bytes e st clb2 ≤ st.remainig_bytes := by omega
  refine ⟨⟨?_, ?_, ?_, ?_⟩, ?_⟩
  · show (st.chunk_first_byte + last_written_bytes e st clb2) % U32 =
      (st.total_written_bytes + last_written_bytes e st clb2) % U32
    rw [i1]
  · show (st.total_written_bytes + last_written_bytes e st clb2) % U32 +
      sub32 st.remainig_bytes (last_written_bytes e st clb2) = CL
    unfold sub32 U32 at *
    omega
  · show (shortReadLast e st clb2 + last_written_bytes e st clb2) % U32 < U32
    unfold U32
    omega
  · show sub32 ((shortReadLast e st clb2 + last_written_bytes e st clb2) % U32)
      ((st.chunk_first_byte + last_written_bytes e st clb2) % U32) ≠ DOWNLOAD_CHUNK_SIZE
    unfold shortReadLast
    split
    · rw [hbtr] at hrd
      unfold sub32 DOWNLOAD_CHUNK_SIZE U32 at *
      omega
    · unfold sub32 DOWNLOAD_CHUNK_SIZE U32 at *
      omega
  · show st.total_written_bytes ≤
      (st.total_written_bytes + last_written_bytes e st clb2) % U32
    unfold sub32 U32 at *
    omega

/-- One chunk-loop iteration (of any kind: probe backoff, reconnect,
timeout, or exchange) preserves the invariant and never decreases
`total_written_bytes`. -/
lemma chunkIter_inv (CL : Nat) (hCL : CL < U32) (e : ChunkIterEnv) (he : EnvSane e)
    (st : ChunkState) (hrem : st.remainig_bytes ≠ 0) (hinv : ChunkInv CL st) :
    ChunkInv CL (chunkIter e st).1 ∧
    st.total_written_bytes ≤ (chunkIter e st).1.total_written_bytes := by
  have h1 : st.chunk_first_byte < U32 := by
    obtain ⟨a, b, _, _⟩ := hinv
    unfold U32 at *
    omega
  have h4 : st.remainig_bytes < U32 := by
    obtain ⟨a, b, _, _⟩ := hinv
    unfold U32 at *
    omega
  have hadj := chunkAdjustLast_spec st h1 hinv.2.2.1 hrem h4 hinv.2.2.2
  rw [chunkIter]
  split
  · exact ⟨hinv, le_refl _⟩
  · split
    · split
      · exact ⟨hinv, le_refl _⟩
      · exact ⟨hinv, le_refl _⟩
    · split
      · exact ⟨⟨hinv.1, hinv.2.1, hadj.1, Nat.ne_of_lt hadj.2.1⟩, le_refl _⟩
      · exact chunkExchange_inv CL hCL e he st (chunkAdjustLast st) hinv
          hadj.2.1 hadj.2.2

/-- The list of iteration-boundary states is never empty and starts with
the entry state. -/
lemma chunkLoopStates_head (env : Nat → ChunkIterEnv) (fuel i : Nat) (st : ChunkState) :
    (chunkLoopStates env fuel i st).head? = some st := by
  cases fuel <;> simp only [chunkLoopStates] <;> try split
  all_goals rfl

/-- Every state at an iteration boundary of the chunk loop satisfies the
invariant, and the written totals form a monotone chain. -/
lemma chunkLoopStates_inv (CL : Nat) (hCL : CL < U32) (env : Nat → ChunkIterEnv)
    (hsane : ∀ i, EnvSane (env i)) :
    ∀ (fuel i : Nat) (st : ChunkState), ChunkInv CL st →
      (∀ s ∈ chunkLoopStates env fuel i st, ChunkInv CL s) ∧
      List.Chain' (fun a b => a.total_written_bytes ≤ b.total_written_bytes)
        (chunkLoopStates env fuel i st) := by
  intro fuel
  induction fuel with
  | zero =>
    intro i st hinv
    refine ⟨?_, ?_⟩
    · intro s hs
      simp only [chunkLoopStates, List.mem_singleton] at hs
      exact hs ▸ hinv
    · simp [chunkLoopStates]
  | succ f ih =>
    intro i st hinv
    by_cases h : st.remainig_bytes = 0
    · refine ⟨?_, ?_⟩
      · intro s hs
        simp only [chunkLoopStates, h, if_pos, List.mem_singleton] at hs
        exact hs ▸ hinv
      · simp [chunkLoopStates, h]
    · have hstep := chunkIter_inv CL hCL (env i) (hsane i) st h hinv
      have ihr := ih (i + 1) (chunkIter (env i) st).1 hstep.1
      refine ⟨?_, ?_⟩
      · intro s hs
        simp only [chunkLoopStates, h, if_neg h, List.mem_cons] at hs
        cases hs with
        | head => exact hinv
        | tail _ h' => exact ihr.1 s h'
      · simp only [chunkLoopStates, if_neg h]
        refine List.chain'_cons'.2 ⟨?_, ihr.2⟩
        intro y hy
        rw [chunkLoopStates_head] at hy
        cases hy
        exact hstep.2

/-- C2: throughout one chunked download session — under the collaborator
contracts that `readBytes` returns at most the requested count and the
sink accepts at most what is handed to it — at every iteration boundary of
the chunk loop `total_written_bytes + remainig_bytes = contentLength` and
`chunk_first_byte = total_written_bytes` (the resume cursor advances by
exactly what the sink acknowledged), `total_written_bytes` never exceeds
`contentLength`, and across boundaries it never decreases. -/
theorem chunk_session_invariant (CL fuel : Nat) (env : Nat → ChunkIterEnv)
    (hCL : CL < U32) (hsane : ∀ i, EnvSane (env i)) :
    (∀ st ∈ chunkLoopStates env fuel 0 (initChunkState CL),
        st.chunk_first_byte = st.total_written_bytes ∧
        st.total_written_bytes + st.remainig_bytes = CL ∧
        st.total_written_bytes ≤ CL) ∧
    List.Chain' (fun a b => a.total_written_bytes ≤ b.total_written_bytes)
      (chunkLoopStates env fuel 0 (initChunkState CL)) := by
  have hinit : ChunkInv CL (initChunkState CL) := by
    refine ⟨rfl, ?_, ?_, ?_⟩
    · show 0 + CL = CL
      omega
    · show DOWNLOAD_CHUNK_SIZE - 1 < U32
      unfold DOWNLOAD_CHUNK_SIZE U32
      omega
    · show sub32 (DOWNLOAD_CHUNK_SIZE - 1) 0 ≠ DOWNLOAD_CHUNK_SIZE
      unfold sub32 DOWNLOAD_CHUNK_SIZE U32
      omega
  have hmain := chunkLoopStates_inv CL hCL env hsane fuel 0 (initChunkState CL) hinit
  refine ⟨?_, hmain.2⟩
  intro st hst
  obtain ⟨a, b, _, _⟩ := hmain.1 st hst
  exact ⟨a, b, by omega⟩

/-- Witness for C2: the 40000-byte full-delivery session of C1 satisfies
the hypotheses, and the conclusion holds for it. -/
theorem chunk_session_invariant_witness :
    (40000 < U32) ∧ (∀ i : Nat, EnvSane ((fun _ => fullDeliveryIter) i)) ∧
    ((∀ st ∈ chunkLoopStates (fun _ => fullDeliveryIter) 5 0 (initChunkState 40000),
        st.chunk_first_byte = st.total_written_bytes ∧
        st.total_written_bytes + st.remainig_bytes = 40000 ∧
        st.total_written_bytes ≤ 40000) ∧
     List.Chain' (fun a b => a.total_written_bytes ≤ b.total_written_bytes)
       (chunkLoopStates (fun _ => fullDeliveryIter) 5 0 (initChunkState 40000))) :=
  ⟨by decide,
   fun _ => ⟨fun n => Nat.le_refl n, fun n => Nat.le_refl n⟩,
   chunk_session_invariant 40000 5 (fun _ => fullDeliveryIter) (by decide)
     (fun _ => ⟨fun n => Nat.le_refl n, fun n => Nat.le_refl n⟩)⟩

/-! ### Link-Guard balance (C5) -/

/-- Concatenating two balanced trace segments gives a balanced trace. -/
lemma semBal_append (a b : List Event) (h : Bool) (h1 : semBal a h = some false)
    (h2 : semBal b false = some false) : semBal (a ++ b) h = some false := by
  unfold semBal at *
  rw [List.foldl_append, h1]
  exact h2

/-- The trace of one ranged-GET exchange is Link-Guard balanced. -/
lemma semBal_chunkExchange (e : ChunkIterEnv) (st : ChunkState) (clb2 : Nat) :
    semBal (chunkExchange e st clb2).2 false = some false := by
  rw [chunkExchange]
  by_cases h1 : (chunkHeaderLoop e.lines st.should_close_connection).2 <;>
    by_cases h2 : (chunkHeaderLoop e.lines st.should_close_connection).1 <;>
      simp [h1, h2, semBal, semStep]

/-- The trace of one chunk-loop iteration is Link-Guard balanced. -/
lemma semBal_chunkIter (e : ChunkIterEnv) (st : ChunkState) :
    semBal (chunkIter e st).2 false = some false := by
  rw [chunkIter]
  split
  · rfl
  · split
    · split <;> rfl
    · split
      · rfl
      · exact semBal_chunkExchange e st _

/-- The trace of the whole chunk loop is Link-Guard balanced, whether or
not it terminates within its fuel. -/
lemma semBal_chunkLoop (env : Nat → ChunkIterEnv) :
    ∀ (fuel i : Nat) (st : ChunkState),
      semBal (chunkLoop env fuel i st).2 false = some false := by
  intro fuel
  induction fuel with
  | zero => intro i st; rfl
  | succ f ih =>
    intro i st
    by_cases h : st.remainig_bytes = 0
    · rw [chunkLoop, if_pos h]
      rfl
    · rw [chunkLoop, if_neg h]
      exact semBal_append _ _ _ (semBal_chunkIter (env i) st) (ih (i + 1) _)

/-- The finalize tail preserves Link-Guard balance. -/
lemma semBal_finishUpdate (evs : List Event) (env : OTAEnv)
    (h : semBal evs false = some false) :
    semBal (finishUpdate evs env).2 false = some false := by
  rw [finishUpdate]
  split
  · split
    · exact semBal_append _ _ _ h rfl
    · exact semBal_append _ _ _ h rfl
  · exact semBal_append _ _ _ h rfl

/-- The chunked trace prefix is Link-Guard balanced. -/
lemma semBal_otaChunkTrace (env : OTAEnv) (fuel : Nat) :
    semBal (otaChunkTrace env fuel) false = some false :=
  semBal_append _ _ _ rfl (semBal_chunkLoop env.chunkEnv fuel 0 _)

/-- Every `execOTA` trace is Link-Guard balanced. -/
lemma semBal_execOTA (st : DeviceState) (env : OTAEnv) (fuel : Nat) :
    semBal (execOTA st env fuel).2 false = some false := by
  rw [execOTA]
  split
  · split
    · rfl
    · split
      · split
        · split
          · split
            · exact semBal_otaChunkTrace env fuel
            · exact semBal_finishUpdate _ _
                (semBal_append _ _ _ (semBal_otaChunkTrace env fuel) rfl)
          · split
            · split
              · rfl
              · exact semBal_finishUpdate _ _ rfl
            · rfl
        · rfl
      · rfl
  · rfl

/-- Every `execHTTPcheck` trace is Link-Guard balanced. -/
lemma semBal_execHTTPcheck (cfg : CheckConfig) (env : CheckEnv) (st0 : DeviceState) :
    semBal (execHTTPcheck cfg env st0).events false = some false := by
  rw [execHTTPcheck]
  split
  · split
    · rfl
    · split
      · rfl
      · split
        · split
          · rfl
          · split
            · split <;> rfl
            · rfl
        · rfl
  · rfl

/-- C5: on every exit path of `execOTA` and `execHTTPcheck`, every
acquisition of the network semaphore (Link Guard) is matched by a release
before the function returns or the next acquisition (the balance scan
rejects a second take while held and requires the guard to be free at the
end), so no terminating execution leaves the guard held. -/
theorem linkGuard_balanced_on_every_path :
    (∀ (st : DeviceState) (env : OTAEnv) (fuel : Nat),
        semBal (execOTA st env fuel).2 false = some false) ∧
    (∀ (cfg : CheckConfig) (env : CheckEnv) (st : DeviceState),
        semBal (execHTTPcheck cfg env st).events false = some false) :=
  ⟨semBal_execOTA, semBal_execHTTPcheck⟩

/-! ### Manifest check: eligibility, frame effects, buffer bounds
(C6-C10) -/

/-- C6: for every successfully parsed manifest, `execHTTPcheck` returns
true exactly when the manifest's type equals the running firmware type and
its version is strictly greater than the running version; and
`forceUpdate` performs no such comparison — it invokes the download engine
unconditionally on the given target. -/
theorem execHTTPcheck_eligibility (cfg : CheckConfig) (env : CheckEnv) (st0 : DeviceState)
    (m : Manifest)
    (hc : env.connectOk = true) (ht : env.timedOut = false)
    (hcl : ¬ 256 < (checkHeaderLoop env.lines initCheckParse).contentLength)
    (hne : (checkHeaderLoop env.lines initCheckParse).contentLength ≠ 0)
    (hct : (checkHeaderLoop env.lines initCheckParse).isValidContentType = true)
    (hm : env.parse = some m) :
    ((execHTTPcheck cfg env st0).result = true ↔
      (m.type = cfg.firwmareType ∧ cfg.firwmareVersion < m.version)) ∧
    (∀ (h : List Char) (p : Int) (b c : List Char) (envO : OTAEnv) (fuel : Nat),
        (forceUpdate h p b c envO fuel).2 =
          execOTA { host := h, bin := b, port := p, checksum := c } envO fuel) := by
  constructor
  · rw [execHTTPcheck]
    simp only [hc, ht, hm, Bool.false_eq_true, if_false, if_true]
    rw [if_neg hcl, if_pos ⟨hne, hct⟩]
    by_cases h1 : m.type = cfg.firwmareType <;>
      by_cases h2 : cfg.firwmareVersion < m.version <;>
        simp [h1, h2]
  · intro h p b c envO fuel
    rfl

/-- C7: when the sink's `Update.begin(contentLength)` refuses (line 207
false branch, lines 500-509), `execOTA` returns false and no GET request
for the firmware body is ever issued on the transport. -/
theorem execOTA_beginFail_no_GET (st : DeviceState) (env : OTAEnv) (fuel : Nat)
    (hc : env.headConnectOk = true) (ht : env.headTimeout = false)
    (hne : (headLoop env.headLines initHeadParse).contentLength ≠ 0)
    (hct : (headLoop env.headLines initHeadParse).isValidContentType = true)
    (hb : env.updateBeginOk = false) :
    (execOTA st env fuel).1 = OTAOutcome.returned false ∧
    hasGET (execOTA st env fuel).2 = false := by
  rw [execOTA]
  simp only [hc, ht, hb, Bool.false_eq_true, if_false, if_true]
  rw [if_pos ⟨hne, hct⟩]
  exact ⟨rfl, rfl⟩

/-- C8: a manifest response whose declared Content-Length exceeds 256
makes `execHTTPcheck` return false without ever calling `readBytes`
(lines 627-634). -/
theorem execHTTPcheck_oversized_manifest (cfg : CheckConfig) (env : CheckEnv)
    (st0 : DeviceState)
    (hc : env.connectOk = true) (ht : env.timedOut = false)
    (hcl : 256 < (checkHeaderLoop env.lines initCheckParse).contentLength) :
    (execHTTPcheck cfg env st0).result = false ∧
    hasReadBytes (execHTTPcheck cfg env st0).events = false := by
  rw [execHTTPcheck]
  simp only [hc, ht, Bool.false_eq_true, if_false, if_true]
  rw [if_pos hcl]
  exact ⟨rfl, rfl⟩

/-- C9: `execHTTPcheck` mutates the stored download target before the
eligibility comparison: on every call the final state either has
`port = 80` with host/bin/checksum untouched (no successfully parsed
manifest), or carries the manifest's host, bin, checksum and port — and on
every successfully parsed manifest the overwrite happens regardless of the
comparison's outcome. -/
theorem execHTTPcheck_mutates_target (cfg : CheckConfig) (env : CheckEnv)
    (st0 : DeviceState) :
    (((execHTTPcheck cfg env st0).state.port = 80 ∧
      (execHTTPcheck cfg env st0).state.host = st0.host ∧
      (execHTTPcheck cfg env st0).state.bin = st0.bin ∧
      (execHTTPcheck cfg env st0).state.checksum = st0.checksum) ∨
     (∃ m, env.parse = some m ∧
       (execHTTPcheck cfg env st0).state.port = m.port ∧
       (execHTTPcheck cfg env st0).state.host = m.host ∧
       (execHTTPcheck cfg env st0).state.bin = m.bin ∧
       (execHTTPcheck cfg env st0).state.checksum = m.checksum)) ∧
    (∀ m, env.parse = some m → env.connectOk = true → env.timedOut = false →
      ¬ 256 < (checkHeaderLoop env.lines initCheckParse).contentLength →
      (checkHeaderLoop env.lines initCheckParse).contentLength ≠ 0 →
      (checkHeaderLoop env.lines initCheckParse).isValidContentType = true →
      (execHTTPcheck cfg env st0).state.port = m.port ∧
      (execHTTPcheck cfg env st0).state.host = m.host ∧
      (execHTTPcheck cfg env st0).state.bin = m.bin ∧
      (execHTTPcheck cfg env st0).state.checksum = m.checksum) := by
  constructor
  · rw [execHTTPcheck]
    split
    · split
      · left
        exact ⟨rfl, rfl, rfl, rfl⟩
      · split
        · left
          exact ⟨rfl, rfl, rfl, rfl⟩
        · split
          · split
            · left
              exact ⟨rfl, rfl, rfl, rfl⟩
            · next m hm =>
                right
                refine ⟨m, hm, ?_⟩
                split
                · split
                  · exact ⟨rfl, rfl, rfl, rfl⟩
                  · exact ⟨rfl, rfl, rfl, rfl⟩
                · exact ⟨rfl, rfl, rfl, rfl⟩
          · left
            exact ⟨rfl, rfl, rfl, rfl⟩
    · left
      exact ⟨rfl, rfl, rfl, rfl⟩
  · intro m hm hc ht hcl hne hct
    rw [execHTTPcheck]
    simp only [hc, ht, hm, Bool.false_eq_true, if_false, if_true]
    rw [if_neg hcl, if_pos ⟨hne, hct⟩]
    split
    · split
      · exact ⟨rfl, rfl, rfl, rfl⟩
      · exact ⟨rfl, rfl, rfl, rfl⟩
    · exact ⟨rfl, rfl, rfl, rfl⟩

/-- C10: for a declared Content-Length `n` with `1 ≤ n ≤ 256` and a valid
content type, the guard admits `n` (including the boundary 256) and
`execHTTPcheck` requests exactly `n` bytes from the transport into its
256-byte buffer `JSONMessage`; the requested count never exceeds the
buffer size, and at `n = 256` the buffer is completely filled — 0 bytes
remain for a string terminator before the buffer is handed to the JSON
parser. -/
theorem execHTTPcheck_reads_exactly_declared_length (cfg : CheckConfig) (env : CheckEnv)
    (st0 : DeviceState) (n : Int)
    (hc : env.connectOk = true) (ht : env.timedOut = false)
    (hn : (checkHeaderLoop env.lines initCheckParse).contentLength = n)
    (h1 : 1 ≤ n) (h2 : n ≤ 256)
    (hct : (checkHeaderLoop env.lines initCheckParse).isValidContentType = true) :
    Event.readBytes n.toNat ∈ (execHTTPcheck cfg env st0).events ∧
    n.toNat ≤ JSONBufferSize ∧
    (n = 256 → JSONBufferSize - n.toNat = 0) := by
  have hint : intToU32 n = n.toNat := by
    unfold intToU32 U32
    omega
  refine ⟨?_, ?_, ?_⟩
  · rw [execHTTPcheck]
    simp only [hc, ht, Bool.false_eq_true, if_false, if_true]
    rw [if_neg (by omega), if_pos ⟨by omega, hct⟩]
    split
    · simp [checkEvs1, checkEvs0, hn, hint]
    · split
      · split
        · simp [checkEvs1, checkEvs0, hn, hint]
        · simp [checkEvs1, checkEvs0, hn, hint]
      · simp [checkEvs1, checkEvs0, hn, hint]
  · unfold JSONBufferSize
    omega
  · intro h256
    unfold JSONBufferSize
    omega

/-! ### Concrete witnesses for the manifest-check theorems -/

/-- Manifest response headers declaring a 100-byte JSON body. -/
def manifestLines100 : List (List Char) :=
  [("HTTP/1.1 200 OK").toList,
   ("Content-Length: 100").toList,
   ("Content-Type: application/json").toList,
   ("").toList]

/-- Manifest response headers declaring a 300-byte JSON body. -/
def manifestLines300 : List (List Char) :=
  [("HTTP/1.1 200 OK").toList,
   ("Content-Length: 300").toList,
   ("Content-Type: application/json").toList,
   ("").toList]

/-- Manifest response headers declaring a 256-byte JSON body (the
boundary value the guard admits). -/
def manifestLines256 : List (List Char) :=
  [("HTTP/1.1 200 OK").toList,
   ("Content-Length: 256").toList,
   ("Content-Type: application/json").toList,
   ("").toList]

/-- A parsed manifest matching the running firmware type with a newer
version. -/
def demoManifest : Manifest :=
  { type := ("esp32-fota-http").toList, version := 3,
    host := ("fw.example.com").toList, bin := ("/new.bin").toList,
    checksum := ("0123abcd").toList, port := 8080 }

/-- A parsed manifest whose type does not match the running firmware. -/
def wrongTypeManifest : Manifest :=
  { type := ("other-device").toList, version := 9,
    host := ("fw.example.com").toList, bin := ("/other.bin").toList,
    checksum := ("feedface").toList, port := 9090 }

/-- The running firmware's identity and manifest endpoint. -/
def demoCheckCfg : CheckConfig :=
  { checkHOST := ("ota.example.com").toList, checkPORT := 80,
    firwmareType := ("esp32-fota-http").toList, firwmareVersion := 2 }

def c6CheckEnv : CheckEnv :=
  { connectOk := true, timedOut := false, lines := manifestLines100,
    parse := some demoManifest }

def c8CheckEnv : CheckEnv :=
  { connectOk := true, timedOut := false, lines := manifestLines300,
    parse := none }

def c9CheckEnv : CheckEnv :=
  { connectOk := true, timedOut := false, lines := manifestLines100,
    parse := some wrongTypeManifest }

def c10CheckEnv : CheckEnv :=
  { connectOk := true, timedOut := false, lines := manifestLines256,
    parse := some demoManifest }

/-- The `updateBeginOk = false` environment of C7. -/
def c7Env : OTAEnv :=
  { headConnectOk := true, headTimeout := false, headLines := headLines5000,
    updateBeginOk := false, chunkEnv := fun _ => fullDeliveryIter,
    wholeConnectOk := true, wholeTimeout := false, wholeWritten := 0,
    updateEndOk := true, updateFinished := true }

/-- Witness for C6: a manifest with matching type and version 3 against
running version 2 makes the check return true, and the equivalence holds. -/
theorem execHTTPcheck_eligibility_witness :
    (c6CheckEnv.connectOk = true ∧ c6CheckEnv.timedOut = false ∧
     ¬ 256 < (checkHeaderLoop c6CheckEnv.lines initCheckParse).contentLength ∧
     (checkHeaderLoop c6CheckEnv.lines initCheckParse).contentLength ≠ 0 ∧
     (checkHeaderLoop c6CheckEnv.lines initCheckParse).isValidContentType = true ∧
     c6CheckEnv.parse = some demoManifest) ∧
    ((execHTTPcheck demoCheckCfg c6CheckEnv demoDevice).result = true ↔
      (demoManifest.type = demoCheckCfg.firwmareType ∧
       demoCheckCfg.firwmareVersion < demoManifest.version)) ∧
    (∀ (h : List Char) (p : Int) (b c : List Char) (envO : OTAEnv) (fuel : Nat),
        (forceUpdate h p b c envO fuel).2 =
          execOTA { host := h, bin := b, port := p, checksum := c } envO fuel) :=
  ⟨⟨rfl, rfl, by decide, by decide, by decide, rfl⟩,
   (execHTTPcheck_eligibility demoCheckCfg c6CheckEnv demoDevice demoManifest
      rfl rfl (by decide) (by decide) (by decide) rfl).1,
   (execHTTPcheck_eligibility demoCheckCfg c6CheckEnv demoDevice demoManifest
      rfl rfl (by decide) (by decide) (by decide) rfl).2⟩

/-- Witness for C7: a 5000-byte binary HEAD response with
`Update.begin` refusing — `execOTA` returns false with no GET issued. -/
theorem execOTA_beginFail_no_GET_witness :
    (c7Env.headConnectOk = true ∧ c7Env.headTimeout = false ∧
     (headLoop c7Env.headLines initHeadParse).contentLength ≠ 0 ∧
     (headLoop c7Env.headLines initHeadParse).isValidContentType = true ∧
     c7Env.updateBeginOk = false) ∧
    ((execOTA demoDevice c7Env 1).1 = OTAOutcome.returned false ∧
     hasGET (execOTA demoDevice c7Env 1).2 = false) :=
  ⟨⟨rfl, rfl, by decide, by decide, rfl⟩,
   execOTA_beginFail_no_GET demoDevice c7Env 1 rfl rfl (by decide) (by decide) rfl⟩

/-- Witness for C8: a declared Content-Length of 300 is rejected with no
`readBytes` call. -/
theorem execHTTPcheck_oversized_manifest_witness :
    (c8CheckEnv.connectOk = true ∧ c8CheckEnv.timedOut = false ∧
     256 < (checkHeaderLoop c8CheckEnv.lines initCheckParse).contentLength) ∧
    ((execHTTPcheck demoCheckCfg c8CheckEnv demoDevice).result = false ∧
     hasReadBytes (execHTTPcheck demoCheckCfg c8CheckEnv demoDevice).events = false) :=
  ⟨⟨rfl, rfl, by decide⟩,
   execHTTPcheck_oversized_manifest demoCheckCfg c8CheckEnv demoDevice rfl rfl (by decide)⟩

/-- Witness for C9: a manifest whose type mismatches makes the check
return false, and nevertheless the stored host, bin, checksum and port are
overwritten with the manifest's values. -/
theorem execHTTPcheck_mutates_target_witness :
    (execHTTPcheck demoCheckCfg c9CheckEnv demoDevice).result = false ∧
    ((execHTTPcheck demoCheckCfg c9CheckEnv demoDevice).state.port = wrongTypeManifest.port ∧
     (execHTTPcheck demoCheckCfg c9CheckEnv demoDevice).state.host = wrongTypeManifest.host ∧
     (execHTTPcheck demoCheckCfg c9CheckEnv demoDevice).state.bin = wrongTypeManifest.bin ∧
     (execHTTPcheck demoCheckCfg c9CheckEnv demoDevice).state.checksum =
       wrongTypeManifest.checksum) :=
  ⟨by decide,
   (execHTTPcheck_mutates_target demoCheckCfg c9CheckEnv demoDevice).2 wrongTypeManifest
     rfl rfl rfl (by decide) (by decide) (by decide)⟩

/-- Witness for C10: at the boundary value 256 the buffer is requested
completely full, leaving 0 bytes of slack. -/
theorem execHTTPcheck_reads_exactly_declared_length_witness :
    (c10CheckEnv.connectOk = true ∧ c10CheckEnv.timedOut = false ∧
     (checkHeaderLoop c10CheckEnv.lines initCheckParse).contentLength = (256 : Int) ∧
     (1 : Int) ≤ 256 ∧ (256 : Int) ≤ 256 ∧
     (checkHeaderLoop c10CheckEnv.lines initCheckParse).isValidContentType = true) ∧
    (Event.readBytes (256 : Int).toNat ∈
       (execHTTPcheck demoCheckCfg c10CheckEnv demoDevice).events ∧
     (256 : Int).toNat ≤ JSONBufferSize ∧
     ((256 : Int) = 256 → JSONBufferSize - (256 : Int).toNat = 0)) :=
  ⟨⟨rfl, rfl, by decide, by decide, by decide, by decide⟩,
   execHTTPcheck_reads_exactly_declared_length demoCheckCfg c10CheckEnv demoDevice 256
     rfl rfl (by decide) (by decide) (by decide) (by decide)⟩

end Esp32Fota
